import Mathlib

/-!
Formal model of the spotify-auth-redirect-callback Express service
(src/index.js).  The service is stateless: every handler is a pure
function of the environment configuration, the request, the outcome of
the single outbound token-endpoint call, the random bytes consumed for
the CSRF state, and the current timestamp.  All of those are explicit
inputs of the model.
-/

/-- JS truthiness of an optional string value: `undefined` and `""` are falsy. -/
def truthy : Option String → Bool
  | none => false
  | some s => !(s == "")

/-- `String(v)` as applied by the `URLSearchParams` constructor:
`undefined` stringifies to "undefined". -/
def jsString : Option String → String
  | none => "undefined"
  | some s => s

/-- JSON values appearing in this service's response bodies.  `strMap` models
the string-valued `endpoints` object of the home route. -/
inductive JVal where
  | str (s : String)
  | num (n : Nat)
  | bool (b : Bool)
  | null
  | strMap (fields : List (String × String))
  deriving DecidableEq, Repr

/-- An HTTP response: status code, JSON body as ordered fields (fields whose
value is `undefined` are already dropped, as JSON.stringify does), and the
redirect Location when one is set. -/
structure Response where
  status : Nat
  body : List (String × JVal)
  location : Option String
  deriving DecidableEq, Repr

/-- Look up a field of a JSON response body. -/
def Response.field (r : Response) (k : String) : Option JVal :=
  (r.body.find? (fun p => p.1 == k)).map (fun p => p.2)

/-- Environment configuration: SPOTIFY_CLIENT_ID, SPOTIFY_CLIENT_SECRET,
SPOTIFY_REDIRECT_URI (each possibly unset). -/
structure Config where
  clientId : Option String
  clientSecret : Option String
  redirectUri : Option String
  deriving DecidableEq, Repr

/-- Pass condition of the env-guard middleware: all three variables truthy
(the middleware rejects when `!CLIENT_ID || !CLIENT_SECRET || !REDIRECT_URI`). -/
def configured (cfg : Config) : Bool :=
  truthy cfg.clientId && truthy cfg.clientSecret && truthy cfg.redirectUri

/-- The query parameters read by the routes. -/
structure QueryParams where
  code : Option String
  error : Option String
  state : Option String
  refresh_token : Option String
  deriving DecidableEq, Repr

/-- An incoming HTTP request. -/
structure Request where
  method : String
  path : String
  query : QueryParams
  deriving DecidableEq, Repr

/-- The JSON body returned by the provider's token endpoint — the fields
src/index.js reads. -/
structure TokenBody where
  access_token : Option String
  token_type : Option String
  scope : Option String
  expires_in : Option Nat
  refresh_token : Option String
  error : Option String
  error_description : Option String
  deriving DecidableEq, Repr

/-- Outcome of the outbound `fetch` + `response.json()`: either a parsed JSON
body, or a thrown exception (network error, malformed response) carrying its
message, which the handlers catch. -/
inductive FetchOutcome where
  | ok (data : TokenBody)
  | fail (message : String)
  deriving DecidableEq, Repr

/-- A handler's observable result: the HTTP response, plus the body of the
outbound token-endpoint request when one was sent (`none` = no provider call). -/
structure HandlerTrace where
  response : Response
  outboundCall : Option (List (String × String))
  deriving DecidableEq, Repr

/-- The hardcoded scope list of src/index.js, joined with single spaces. -/
def SCOPES : String :=
  String.intercalate " "
    ["user-read-private", "user-read-email", "playlist-read-private",
     "playlist-modify-public", "playlist-modify-private", "user-library-read",
     "user-top-read", "user-read-playback-state", "user-modify-playback-state"]

/-- Lower-case hexadecimal digit for `0 ≤ n < 16`. -/
def hexDigit (n : Nat) : Char :=
  if n < 10 then Char.ofNat (48 + n) else Char.ofNat (87 + n)

/-- The two hex digits of one byte, as in Node's `Buffer.toString('hex')`. -/
def byteHexChars (b : Nat) : List Char :=
  [hexDigit (b / 16), hexDigit (b % 16)]

/-- Hex rendering of a byte sequence. -/
def bytesHexChars (bs : List Nat) : List Char :=
  (bs.map byteHexChars).flatten

/-- `generateState`: `crypto.randomBytes(length).toString('hex')`.  The random
bytes drawn are an explicit input of the model. -/
def generateState (bytes : List Nat) : String :=
  String.mk (bytesHexChars bytes)

/-- Upper-case hexadecimal digit for `0 ≤ n < 16`. -/
def hexDigitUpper (n : Nat) : Char :=
  if n < 10 then Char.ofNat (48 + n) else Char.ofNat (55 + n)

/-- The UTF-8 bytes of a character. -/
def utf8Bytes (c : Char) : List Nat :=
  let n := c.toNat
  if n < 128 then [n]
  else if n < 2048 then [192 + n / 64, 128 + n % 64]
  else if n < 65536 then [224 + n / 4096, 128 + (n / 64) % 64, 128 + n % 64]
  else [240 + n / 262144, 128 + (n / 4096) % 64, 128 + (n / 64) % 64, 128 + n % 64]

/-- Characters the application/x-www-form-urlencoded serializer leaves as-is. -/
def formUnreserved (c : Char) : Bool :=
  c.isAlphanum || c == '*' || c == '-' || c == '.' || c == '_'

/-- Encoding of one character by the urlencoded serializer. -/
def encodeChar (c : Char) : List Char :=
  if c == ' ' then ['+']
  else if formUnreserved c then [c]
  else ((utf8Bytes c).map (fun b => ['%', hexDigitUpper (b / 16), hexDigitUpper (b % 16)])).flatten

/-- application/x-www-form-urlencoded encoding of a string. -/
def formEncode (s : String) : String :=
  String.mk ((s.data.map encodeChar).flatten)

/-- `URLSearchParams.toString()`: key=value pairs, both encoded, joined by `&`. -/
def serializeParams (ps : List (String × String)) : String :=
  String.intercalate "&" (ps.map (fun p => formEncode p.1 ++ "=" ++ formEncode p.2))

/-- The parameters of the authorization redirect built by GET /login. -/
def authorizationParams (cfg : Config) (stateBytes : List Nat) : List (String × String) :=
  [("response_type", "code"),
   ("client_id", jsString cfg.clientId),
   ("scope", SCOPES),
   ("redirect_uri", jsString cfg.redirectUri),
   ("state", generateState stateBytes)]

/-- GET /login: 302 redirect to the provider's authorize URL. -/
def loginHandler (cfg : Config) (stateBytes : List Nat) : HandlerTrace :=
  { response :=
      { status := 302, body := [],
        location := some ("https://accounts.spotify.com/authorize?" ++
          serializeParams (authorizationParams cfg stateBytes)) },
    outboundCall := none }

/-- A JSON field that is dropped when its value is `undefined` (JSON.stringify). -/
def optField (k : String) : Option JVal → List (String × JVal)
  | none => []
  | some v => [(k, v)]

/-- GET /callback: relay a provider error, reject a missing code, or exchange
the code for tokens. -/
def callbackHandler (cfg : Config) (q : QueryParams) (outcome : FetchOutcome) : HandlerTrace :=
  if truthy q.error then
    { response :=
        { status := 400,
          body := [("success", JVal.bool false), ("error", JVal.str (q.error.getD "")),
                   ("message", JVal.str ("Spotify authorization failed: " ++ q.error.getD "")),
                   ("state", if truthy q.state then JVal.str (q.state.getD "") else JVal.null)],
          location := none },
      outboundCall := none }
  else if !truthy q.code then
    { response :=
        { status := 400,
          body := [("success", JVal.bool false), ("error", JVal.str "missing_code"),
                   ("message", JVal.str "No authorization code was returned by Spotify.")],
          location := none },
      outboundCall := none }
  else
    let sent := [("grant_type", "authorization_code"), ("code", q.code.getD ""),
                 ("redirect_uri", jsString cfg.redirectUri)]
    match outcome with
    | FetchOutcome.fail msg =>
      { response :=
          { status := 500,
            body := [("success", JVal.bool false), ("error", JVal.str "token_exchange_error"),
                     ("message", JVal.str msg)],
            location := none },
        outboundCall := some sent }
    | FetchOutcome.ok data =>
      if truthy data.error then
        { response :=
            { status := 400,
              body := [("success", JVal.bool false), ("error", JVal.str (data.error.getD "")),
                       ("message", JVal.str (if truthy data.error_description then
                          data.error_description.getD "" else "Token exchange failed."))],
              location := none },
          outboundCall := some sent }
      else
        { response :=
            { status := 200,
              body := [("success", JVal.bool true)] ++
                optField "access_token" (data.access_token.map JVal.str) ++
                optField "token_type" (data.token_type.map JVal.str) ++
                optField "scope" (data.scope.map JVal.str) ++
                optField "expires_in" (data.expires_in.map JVal.num) ++
                optField "refresh_token" (data.refresh_token.map JVal.str),
              location := none },
          outboundCall := some sent }

/-- GET /refresh_token: reject a missing refresh token, or exchange it. -/
def refreshHandler (q : QueryParams) (outcome : FetchOutcome) : HandlerTrace :=
  if !truthy q.refresh_token then
    { response :=
        { status := 400,
          body := [("success", JVal.bool false), ("error", JVal.str "missing_refresh_token"),
                   ("message", JVal.str "Query parameter \"refresh_token\" is required.")],
          location := none },
      outboundCall := none }
  else
    let sent := [("grant_type", "refresh_token"), ("refresh_token", q.refresh_token.getD "")]
    match outcome with
    | FetchOutcome.fail msg =>
      { response :=
          { status := 500,
            body := [("success", JVal.bool false), ("error", JVal.str "refresh_token_error"),
                     ("message", JVal.str msg)],
            location := none },
        outboundCall := some sent }
    | FetchOutcome.ok data =>
      if truthy data.error then
        { response :=
            { status := 400,
              body := [("success", JVal.bool false), ("error", JVal.str (data.error.getD "")),
                       ("message", JVal.str (if truthy data.error_description then
                          data.error_description.getD "" else "Token refresh failed."))],
              location := none },
          outboundCall := some sent }
      else
        { response :=
            { status := 200,
              body := [("success", JVal.bool true)] ++
                optField "access_token" (data.access_token.map JVal.str) ++
                optField "token_type" (data.token_type.map JVal.str) ++
                optField "scope" (data.scope.map JVal.str) ++
                optField "expires_in" (data.expires_in.map JVal.num) ++
                (if truthy data.refresh_token then
                   [("refresh_token", JVal.str (data.refresh_token.getD ""))] else []),
              location := none },
          outboundCall := some sent }

/-- GET /: lists the available endpoints. -/
def homeTrace : HandlerTrace :=
  { response :=
      { status := 200,
        body := [("name", JVal.str "spotify-auth-redirect-callback"),
                 ("endpoints", JVal.strMap
                   [("GET /health", "Health check"),
                    ("GET /login", "Redirect to Spotify authorization page"),
                    ("GET /callback", "Spotify OAuth2 callback (handles success & failure)"),
                    ("GET /refresh_token", "Refresh an access token (query: refresh_token)")])],
        location := none },
    outboundCall := none }

/-- GET /health. -/
def healthTrace (nowIso : String) : HandlerTrace :=
  { response :=
      { status := 200,
        body := [("status", JVal.str "ok"), ("timestamp", JVal.str nowIso)],
        location := none },
    outboundCall := none }

/-- The message of the env-guard middleware's 500 response. -/
def envGuardMessage : String :=
  "SPOTIFY_CLIENT_ID, SPOTIFY_CLIENT_SECRET, and SPOTIFY_REDIRECT_URI must be set in environment variables."

/-- The full Express pipeline of src/index.js: env-guard middleware, the five
GET routes, then the 404 handler.  Effects are explicit inputs: the fetch
outcome, the random state bytes, and the current ISO timestamp. -/
def appHandle (cfg : Config) (req : Request) (outcome : FetchOutcome)
    (stateBytes : List Nat) (nowIso : String) : HandlerTrace :=
  if !(req.path == "/health" || req.path == "/") && !configured cfg then
    { response :=
        { status := 500,
          body := [("error", JVal.str "server_misconfigured"),
                   ("message", JVal.str envGuardMessage)],
          location := none },
      outboundCall := none }
  else if req.method == "GET" && req.path == "/" then homeTrace
  else if req.method == "GET" && req.path == "/health" then healthTrace nowIso
  else if req.method == "GET" && req.path == "/login" then loginHandler cfg stateBytes
  else if req.method == "GET" && req.path == "/callback" then callbackHandler cfg req.query outcome
  else if req.method == "GET" && req.path == "/refresh_token" then refreshHandler req.query outcome
  else
    { response :=
        { status := 404,
          body := [("error", JVal.str "not_found"),
                   ("message", JVal.str ("Route " ++ req.method ++ " " ++ req.path ++ " not found."))],
          location := none },
      outboundCall := none }

/-- A fully configured environment, as in the repository's test suite. -/
def cfgW : Config :=
  { clientId := some "test_client_id", clientSecret := some "test_client_secret",
    redirectUri := some "http://localhost:3000/callback" }

/-- An empty query. -/
def qNone : QueryParams :=
  { code := none, error := none, state := none, refresh_token := none }

/-- A provider body whose error field is present but holds the empty string. -/
def dEmptyError : TokenBody :=
  { access_token := none, token_type := none, scope := none, expires_in := none,
    refresh_token := none, error := some "", error_description := none }

/-- A provider invalid_grant error body with a description. -/
def dInvalidGrant : TokenBody :=
  { access_token := none, token_type := none, scope := none, expires_in := none,
    refresh_token := none, error := some "invalid_grant",
    error_description := some "Invalid authorization code" }

/-- A provider success body whose refresh_token field holds the empty string. -/
def dEmptyRefresh : TokenBody :=
  { access_token := some "AT", token_type := some "Bearer", scope := some "sc",
    expires_in := some 3600, refresh_token := some "", error := none,
    error_description := none }

/-- A full provider success body. -/
def dFull : TokenBody :=
  { access_token := some "AT", token_type := some "Bearer", scope := some "sc",
    expires_in := some 3600, refresh_token := some "RT", error := none,
    error_description := none }

/-- `hexDigit` is injective on digit values. -/
theorem hexDigit_injFin : ∀ a b : Fin 16, hexDigit a.val = hexDigit b.val → a = b := by decide

theorem byteHexChars_inj {a b : Nat} (ha : a < 256) (hb : b < 256)
    (h : byteHexChars a = byteHexChars b) : a = b := by
  simp only [byteHexChars, List.cons.injEq, and_true] at h
  obtain ⟨h1, h2⟩ := h
  have d1 : a / 16 = b / 16 := by
    have := hexDigit_injFin ⟨a / 16, by omega⟩ ⟨b / 16, by omega⟩ h1
    simpa using congrArg Fin.val this
  have d2 : a % 16 = b % 16 := by
    have := hexDigit_injFin ⟨a % 16, by omega⟩ ⟨b % 16, by omega⟩ h2
    simpa using congrArg Fin.val this
  omega

theorem bytesHexChars_inj : ∀ (l1 l2 : List Nat), (∀ x ∈ l1, x < 256) → (∀ x ∈ l2, x < 256) →
    l1.length = l2.length → bytesHexChars l1 = bytesHexChars l2 → l1 = l2 := by
  intro l1
  induction l1 with
  | nil =>
    intro l2 _ _ hlen _
    cases l2 with
    | nil => rfl
    | cons b t => simp at hlen
  | cons a t ih =>
    intro l2 hb1 hb2 hlen heq
    cases l2 with
    | nil => simp at hlen
    | cons b t2 =>
      simp only [bytesHexChars, byteHexChars, List.map_cons, List.flatten_cons,
        List.cons_append, List.nil_append, List.cons.injEq] at heq
      obtain ⟨e1, e2, e3⟩ := heq
      have hab : a = b := by
        refine byteHexChars_inj (hb1 a (by simp)) (hb2 b (by simp)) ?_
        simp [byteHexChars, e1, e2]
      subst hab
      have ht : t = t2 := by
        refine ih t2 (fun x hx => hb1 x (by simp [hx])) (fun x hx => hb2 x (by simp [hx]))
          (by simpa using hlen) ?_
        simpa [bytesHexChars] using e3
      simp [ht]

/-- Distinct byte sequences of equal length hex-encode to distinct state strings. -/
theorem generateState_inj {l1 l2 : List Nat} (h1 : ∀ x ∈ l1, x < 256) (h2 : ∀ x ∈ l2, x < 256)
    (hlen : l1.length = l2.length) (hne : l1 ≠ l2) : generateState l1 ≠ generateState l2 := by
  intro h
  exact hne (bytesHexChars_inj l1 l2 h1 h2 hlen (congrArg String.data h))

/-- The state of a nonempty byte draw is a nonempty string. -/
theorem generateState_ne_empty {l : List Nat} (h : l ≠ []) : generateState l ≠ "" := by
  cases l with
  | nil => exact absurd rfl h
  | cons a t =>
    intro heq
    have : bytesHexChars (a :: t) = [] := congrArg String.data heq
    simp [bytesHexChars, byteHexChars] at this

/-- Any non-200 response of the callback handler is a 400 (or a 500 exactly when the
outbound call threw), with `success:false` and `error`/`message` fields present. -/
theorem callbackShape (cfg : Config) (q : QueryParams) (o : FetchOutcome) :
    (callbackHandler cfg q o).response.status ≠ 200 →
    ((callbackHandler cfg q o).response.status = 400 ∨
      ((callbackHandler cfg q o).response.status = 500 ∧ ∃ m, o = FetchOutcome.fail m)) ∧
    (callbackHandler cfg q o).response.field "success" = some (JVal.bool false) ∧
    ((callbackHandler cfg q o).response.field "error").isSome = true ∧
    ((callbackHandler cfg q o).response.field "message").isSome = true := by
  cases he : truthy q.error with
  | true => intro _; simp [callbackHandler, he, Response.field, List.find?]
  | false =>
    cases hc : truthy q.code with
    | false => intro _; simp [callbackHandler, he, hc, Response.field, List.find?]
    | true =>
      cases o with
      | fail m => intro _; simp [callbackHandler, he, hc, Response.field, List.find?]
      | ok d =>
        cases hde : truthy d.error with
        | true => intro _; simp [callbackHandler, he, hc, hde, Response.field, List.find?]
        | false =>
          intro hne
          exact absurd (by simp [callbackHandler, he, hc, hde]) hne

/-- Any non-200 response of the refresh handler is a 400 (or a 500 exactly when the
outbound call threw), with `success:false` and `error`/`message` fields present. -/
theorem refreshShape (q : QueryParams) (o : FetchOutcome) :
    (refreshHandler q o).response.status ≠ 200 →
    ((refreshHandler q o).response.status = 400 ∨
      ((refreshHandler q o).response.status = 500 ∧ ∃ m, o = FetchOutcome.fail m)) ∧
    (refreshHandler q o).response.field "success" = some (JVal.bool false) ∧
    ((refreshHandler q o).response.field "error").isSome = true ∧
    ((refreshHandler q o).response.field "message").isSome = true := by
  cases hr : truthy q.refresh_token with
  | false => intro _; simp [refreshHandler, hr, Response.field, List.find?]
  | true =>
    cases o with
    | fail m => intro _; simp [refreshHandler, hr, Response.field, List.find?]
    | ok d =>
      cases hde : truthy d.error with
      | true => intro _; simp [refreshHandler, hr, hde, Response.field, List.find?]
      | false =>
        intro hne
        exact absurd (by simp [refreshHandler, hr, hde]) hne

/-- Under a configured environment, GET /callback reaches the callback handler. -/
theorem appHandle_callback (cfg : Config) (q : QueryParams) (o : FetchOutcome)
    (b : List Nat) (n : String) (hcfg : configured cfg = true) :
    appHandle cfg ⟨"GET", "/callback", q⟩ o b n = callbackHandler cfg q o := by
  simp [appHandle, hcfg]

/-- Under a configured environment, GET /refresh_token reaches the refresh handler. -/
theorem appHandle_refresh (cfg : Config) (q : QueryParams) (o : FetchOutcome)
    (b : List Nat) (n : String) (hcfg : configured cfg = true) :
    appHandle cfg ⟨"GET", "/refresh_token", q⟩ o b n = refreshHandler q o := by
  simp [appHandle, hcfg]

/-- Under a configured environment, GET /login reaches the login handler. -/
theorem appHandle_login (cfg : Config) (q : QueryParams) (o : FetchOutcome)
    (b : List Nat) (n : String) (hcfg : configured cfg = true) :
    appHandle cfg ⟨"GET", "/login", q⟩ o b n = loginHandler cfg b := by
  simp [appHandle, hcfg]

/-- C3: with any of the three credentials unset, every request to a path other than
`/` and `/health` gets a 500 `server_misconfigured` response with no route logic run
(no outbound call, a fixed body); and for `/` and `/health` the pipeline's result does
not depend on the configuration at all. -/
theorem c3_env_guard :
    (∀ (cfg : Config) (req : Request) (o : FetchOutcome) (b : List Nat) (n : String),
      (cfg.clientId = none ∨ cfg.clientSecret = none ∨ cfg.redirectUri = none) →
      req.path ≠ "/" → req.path ≠ "/health" →
      appHandle cfg req o b n =
        { response :=
            { status := 500,
              body := [("error", JVal.str "server_misconfigured"),
                       ("message", JVal.str envGuardMessage)],
              location := none },
          outboundCall := none }) ∧
    (∀ (cfg cfg' : Config) (req : Request) (o : FetchOutcome) (b : List Nat) (n : String),
      (req.path = "/" ∨ req.path = "/health") →
      appHandle cfg req o b n = appHandle cfg' req o b n) := by
  constructor
  · intro cfg req o b n hmiss hp1 hp2
    have e1 : (req.path == "/health") = false := beq_eq_false_iff_ne.mpr hp2
    have e2 : (req.path == "/") = false := beq_eq_false_iff_ne.mpr hp1
    have e3 : configured cfg = false := by
      rcases hmiss with h | h | h <;> simp [configured, h, truthy]
    simp [appHandle, e1, e2, e3]
  · intro cfg cfg' req o b n hp
    rcases hp with h | h <;> simp [appHandle, h]

/-- C3 witness: a concrete unconfigured environment rejects GET /callback with the
500 trace, and the home route ignores the configuration. -/
theorem c3_env_guard_witness :
    appHandle { clientId := none, clientSecret := some "s", redirectUri := some "r" }
        ⟨"GET", "/callback", qNone⟩ (FetchOutcome.fail "x") [] "t" =
      { response :=
          { status := 500,
            body := [("error", JVal.str "server_misconfigured"),
                     ("message", JVal.str envGuardMessage)],
            location := none },
        outboundCall := none } ∧
    appHandle { clientId := none, clientSecret := some "s", redirectUri := some "r" }
        ⟨"GET", "/", qNone⟩ (FetchOutcome.fail "x") [] "t" =
      appHandle cfgW ⟨"GET", "/", qNone⟩ (FetchOutcome.fail "x") [] "t" :=
  ⟨c3_env_guard.1 _ ⟨"GET", "/callback", qNone⟩ (FetchOutcome.fail "x") [] "t"
      (Or.inl rfl) (by decide) (by decide),
   c3_env_guard.2 _ cfgW ⟨"GET", "/", qNone⟩ (FetchOutcome.fail "x") [] "t" (Or.inl rfl)⟩

/-- C4: under a configured environment, every request to a path outside the five
defined routes gets the 404 `not_found` response with the route echoed in the message. -/
theorem c4_not_found (cfg : Config) (req : Request) (o : FetchOutcome)
    (b : List Nat) (n : String) (hcfg : configured cfg = true)
    (h1 : req.path ≠ "/") (h2 : req.path ≠ "/health") (h3 : req.path ≠ "/login")
    (h4 : req.path ≠ "/callback") (h5 : req.path ≠ "/refresh_token") :
    appHandle cfg req o b n =
      { response :=
          { status := 404,
            body := [("error", JVal.str "not_found"),
                     ("message", JVal.str ("Route " ++ req.method ++ " " ++ req.path ++ " not found."))],
            location := none },
        outboundCall := none } := by
  have e1 : (req.path == "/") = false := beq_eq_false_iff_ne.mpr h1
  have e2 : (req.path == "/health") = false := beq_eq_false_iff_ne.mpr h2
  have e3 : (req.path == "/login") = false := beq_eq_false_iff_ne.mpr h3
  have e4 : (req.path == "/callback") = false := beq_eq_false_iff_ne.mpr h4
  have e5 : (req.path == "/refresh_token") = false := beq_eq_false_iff_ne.mpr h5
  simp [appHandle, hcfg, e1, e2, e3, e4, e5]

/-- C4 witness: GET /nonexistent on a configured server is a 404. -/
theorem c4_not_found_witness :
    appHandle cfgW ⟨"GET", "/nonexistent", qNone⟩ (FetchOutcome.fail "x") [] "t" =
      { response :=
          { status := 404,
            body := [("error", JVal.str "not_found"),
                     ("message", JVal.str ("Route " ++ "GET" ++ " " ++ "/nonexistent" ++ " not found."))],
            location := none },
        outboundCall := none } :=
  c4_not_found cfgW ⟨"GET", "/nonexistent", qNone⟩ (FetchOutcome.fail "x") [] "t"
    (by decide) (by decide) (by decide) (by decide) (by decide) (by decide)

/-- C1 counterexample: a provider token-endpoint body that contains an `error` field
whose value is the empty string is treated as a success — the callback responds 200,
not 400 (the code tests `data.error` for truthiness, not presence). -/
theorem c1_counterexample :
    dEmptyError.error.isSome = true ∧
    (appHandle cfgW ⟨"GET", "/callback", { qNone with code := some "abc" }⟩
        (FetchOutcome.ok dEmptyError) [] "t").response.status = 200 ∧
    (appHandle cfgW ⟨"GET", "/callback", { qNone with code := some "abc" }⟩
        (FetchOutcome.ok dEmptyError) [] "t").response.status ≠ 400 := by
  decide

/-- C1 (amended): for provider bodies whose `error` field is non-empty, both
GET /callback and GET /refresh_token respond 400 with the provider's error code
relayed untouched, and with the provider's error description relayed untouched when
it is non-empty — otherwise a fixed fallback message. -/
theorem c1_provider_error_relay :
    (∀ (cfg : Config) (q : QueryParams) (d : TokenBody) (b : List Nat) (n : String),
      configured cfg = true → truthy q.error = false → truthy q.code = true →
      truthy d.error = true →
      (appHandle cfg ⟨"GET", "/callback", q⟩ (FetchOutcome.ok d) b n).response.status = 400 ∧
      (appHandle cfg ⟨"GET", "/callback", q⟩ (FetchOutcome.ok d) b n).response.field "error" =
        some (JVal.str (d.error.getD "")) ∧
      (appHandle cfg ⟨"GET", "/callback", q⟩ (FetchOutcome.ok d) b n).response.field "message" =
        some (JVal.str (if truthy d.error_description then d.error_description.getD ""
          else "Token exchange failed."))) ∧
    (∀ (cfg : Config) (q : QueryParams) (d : TokenBody) (b : List Nat) (n : String),
      configured cfg = true → truthy q.refresh_token = true → truthy d.error = true →
      (appHandle cfg ⟨"GET", "/refresh_token", q⟩ (FetchOutcome.ok d) b n).response.status = 400 ∧
      (appHandle cfg ⟨"GET", "/refresh_token", q⟩ (FetchOutcome.ok d) b n).response.field "error" =
        some (JVal.str (d.error.getD "")) ∧
      (appHandle cfg ⟨"GET", "/refresh_token", q⟩ (FetchOutcome.ok d) b n).response.field "message" =
        some (JVal.str (if truthy d.error_description then d.error_description.getD ""
          else "Token refresh failed."))) := by
  constructor
  · intro cfg q d b n hcfg he hc hde
    rw [appHandle_callback cfg q _ b n hcfg]
    refine ⟨?_, ?_, ?_⟩ <;> simp [callbackHandler, he, hc, hde, Response.field, List.find?]
  · intro cfg q d b n hcfg hr hde
    rw [appHandle_refresh cfg q _ b n hcfg]
    refine ⟨?_, ?_, ?_⟩ <;> simp [refreshHandler, hr, hde, Response.field, List.find?]

/-- C1 witness: a concrete `invalid_grant` body with a description is relayed as a
400 whose `error` field is the provider's code. -/
theorem c1_provider_error_relay_witness :
    (appHandle cfgW ⟨"GET", "/callback", { qNone with code := some "abc" }⟩
        (FetchOutcome.ok dInvalidGrant) [] "t").response.field "error" =
      some (JVal.str (dInvalidGrant.error.getD "")) :=
  (c1_provider_error_relay.1 cfgW { qNone with code := some "abc" } dInvalidGrant [] "t"
    (by decide) (by decide) (by decide) (by decide)).2.1

/-- C2 counterexample: a transport failure during the code exchange (the `catch`
branch of GET /callback) produces HTTP 500, not 400. -/
theorem c2_counterexample :
    (appHandle cfgW ⟨"GET", "/callback", { qNone with code := some "abc" }⟩
        (FetchOutcome.fail "socket hang up") [] "t").response.status = 500 ∧
    (appHandle cfgW ⟨"GET", "/callback", { qNone with code := some "abc" }⟩
        (FetchOutcome.fail "socket hang up") [] "t").response.status ≠ 400 := by
  decide

/-- C2 (amended): every failure response of GET /callback and GET /refresh_token is a
400 with a `{success:false, error, message}` body, except transport failures (a thrown
outbound call), which are 500 with the same body shape. -/
theorem c2_failure_status :
    (∀ (cfg : Config) (q : QueryParams) (o : FetchOutcome) (b : List Nat) (n : String),
      configured cfg = true →
      (appHandle cfg ⟨"GET", "/callback", q⟩ o b n).response.status ≠ 200 →
      ((appHandle cfg ⟨"GET", "/callback", q⟩ o b n).response.status = 400 ∨
        ((appHandle cfg ⟨"GET", "/callback", q⟩ o b n).response.status = 500 ∧
          ∃ m, o = FetchOutcome.fail m)) ∧
      (appHandle cfg ⟨"GET", "/callback", q⟩ o b n).response.field "success" =
        some (JVal.bool false) ∧
      ((appHandle cfg ⟨"GET", "/callback", q⟩ o b n).response.field "error").isSome = true ∧
      ((appHandle cfg ⟨"GET", "/callback", q⟩ o b n).response.field "message").isSome = true) ∧
    (∀ (cfg : Config) (q : QueryParams) (o : FetchOutcome) (b : List Nat) (n : String),
      configured cfg = true →
      (appHandle cfg ⟨"GET", "/refresh_token", q⟩ o b n).response.status ≠ 200 →
      ((appHandle cfg ⟨"GET", "/refresh_token", q⟩ o b n).response.status = 400 ∨
        ((appHandle cfg ⟨"GET", "/refresh_token", q⟩ o b n).response.status = 500 ∧
          ∃ m, o = FetchOutcome.fail m)) ∧
      (appHandle cfg ⟨"GET", "/refresh_token", q⟩ o b n).response.field "success" =
        some (JVal.bool false) ∧
      ((appHandle cfg ⟨"GET", "/refresh_token", q⟩ o b n).response.field "error").isSome = true ∧
      ((appHandle cfg ⟨"GET", "/refresh_token", q⟩ o b n).response.field "message").isSome = true) := by
  constructor
  · intro cfg q o b n hcfg
    rw [appHandle_callback cfg q o b n hcfg]
    exact callbackShape cfg q o
  · intro cfg q o b n hcfg
    rw [appHandle_refresh cfg q o b n hcfg]
    exact refreshShape q o

/-- C2 witness: a concrete missing-code failure carries `success:false` per the theorem. -/
theorem c2_failure_status_witness :
    (appHandle cfgW ⟨"GET", "/callback", qNone⟩ (FetchOutcome.fail "boom") [] "t").response.field
        "success" = some (JVal.bool false) :=
  (c2_failure_status.1 cfgW qNone (FetchOutcome.fail "boom") [] "t" (by decide) (by decide)).2.1

/-- C5: GET /login on a configured server responds 302, the Location is the provider's
authorize URL carrying exactly response_type=code, the configured client_id, the
hardcoded scope list, the configured redirect_uri and a non-empty state; state values
of two calls differ whenever their drawn random bytes differ. -/
theorem c5_login_redirect :
    ∀ (cfg : Config) (q : QueryParams) (o : FetchOutcome) (n : String) (b1 b2 : List Nat),
      configured cfg = true →
      b1.length = 16 → (∀ x ∈ b1, x < 256) → b2.length = 16 → (∀ x ∈ b2, x < 256) →
      (appHandle cfg ⟨"GET", "/login", q⟩ o b1 n).response.status = 302 ∧
      (appHandle cfg ⟨"GET", "/login", q⟩ o b1 n).response.location =
        some ("https://accounts.spotify.com/authorize?" ++
          serializeParams (authorizationParams cfg b1)) ∧
      authorizationParams cfg b1 =
        [("response_type", "code"), ("client_id", cfg.clientId.getD ""), ("scope", SCOPES),
         ("redirect_uri", cfg.redirectUri.getD ""), ("state", generateState b1)] ∧
      generateState b1 ≠ "" ∧
      (b1 ≠ b2 → generateState b1 ≠ generateState b2) := by
  intro cfg q o n b1 b2 hcfg hl1 hb1 hl2 hb2
  obtain ⟨cid, hcid⟩ : ∃ s, cfg.clientId = some s := by
    cases h : cfg.clientId
    · simp [configured, h, truthy] at hcfg
    · exact ⟨_, rfl⟩
  obtain ⟨ruri, hruri⟩ : ∃ s, cfg.redirectUri = some s := by
    cases h : cfg.redirectUri
    · simp [configured, h, truthy] at hcfg
    · exact ⟨_, rfl⟩
  refine ⟨?_, ?_, ?_, ?_, ?_⟩
  · rw [appHandle_login cfg q o b1 n hcfg]; rfl
  · rw [appHandle_login cfg q o b1 n hcfg]; rfl
  · simp [authorizationParams, jsString, hcid, hruri]
  · exact generateState_ne_empty (by intro h; rw [h] at hl1; simp at hl1)
  · intro hne
    exact generateState_inj hb1 hb2 (by rw [hl1, hl2]) hne

/-- C5 witness: two concrete distinct byte draws give a 302 with distinct non-empty states. -/
theorem c5_login_redirect_witness :
    (appHandle cfgW ⟨"GET", "/login", qNone⟩ (FetchOutcome.fail "x") (List.replicate 16 0)
        "t").response.status = 302 ∧
    generateState (List.replicate 16 0) ≠ "" ∧
    (List.replicate 16 0 ≠ List.replicate 16 1 →
      generateState (List.replicate 16 0) ≠ generateState (List.replicate 16 1)) := by
  have h := c5_login_redirect cfgW qNone (FetchOutcome.fail "x") "t"
    (List.replicate 16 0) (List.replicate 16 1) (by decide) (by decide) (by decide)
    (by decide) (by decide)
  exact ⟨h.1, h.2.2.2.1, h.2.2.2.2⟩

/-- C6: a GET /callback whose query has neither `error` nor `code` is answered 400
`missing_code`, and a GET /refresh_token without `refresh_token` is answered 400
`missing_refresh_token`; in both cases no outbound provider call happens and the
response does not depend on the fetch outcome. -/
theorem c6_missing_inputs :
    (∀ (cfg : Config) (q : QueryParams) (o : FetchOutcome) (b : List Nat) (n : String),
      configured cfg = true → q.error = none → q.code = none →
      appHandle cfg ⟨"GET", "/callback", q⟩ o b n =
        { response :=
            { status := 400,
              body := [("success", JVal.bool false), ("error", JVal.str "missing_code"),
                       ("message", JVal.str "No authorization code was returned by Spotify.")],
              location := none },
          outboundCall := none }) ∧
    (∀ (cfg : Config) (q : QueryParams) (o : FetchOutcome) (b : List Nat) (n : String),
      configured cfg = true → q.refresh_token = none →
      appHandle cfg ⟨"GET", "/refresh_token", q⟩ o b n =
        { response :=
            { status := 400,
              body := [("success", JVal.bool false), ("error", JVal.str "missing_refresh_token"),
                       ("message", JVal.str "Query parameter \"refresh_token\" is required.")],
              location := none },
          outboundCall := none }) := by
  constructor
  · intro cfg q o b n hcfg he hc
    rw [appHandle_callback cfg q o b n hcfg]
    simp [callbackHandler, he, hc, truthy]
  · intro cfg q o b n hcfg hr
    rw [appHandle_refresh cfg q o b n hcfg]
    simp [refreshHandler, hr, truthy]

/-- C6 witness: the two missing-parameter rejections at concrete empty queries. -/
theorem c6_missing_inputs_witness :
    appHandle cfgW ⟨"GET", "/callback", qNone⟩ (FetchOutcome.fail "x") [] "t" =
      { response :=
          { status := 400,
            body := [("success", JVal.bool false), ("error", JVal.str "missing_code"),
                     ("message", JVal.str "No authorization code was returned by Spotify.")],
            location := none },
        outboundCall := none } ∧
    appHandle cfgW ⟨"GET", "/refresh_token", qNone⟩ (FetchOutcome.fail "x") [] "t" =
      { response :=
          { status := 400,
            body := [("success", JVal.bool false), ("error", JVal.str "missing_refresh_token"),
                     ("message", JVal.str "Query parameter \"refresh_token\" is required.")],
            location := none },
        outboundCall := none } :=
  ⟨c6_missing_inputs.1 cfgW qNone (FetchOutcome.fail "x") [] "t" (by decide) rfl rfl,
   c6_missing_inputs.2 cfgW qNone (FetchOutcome.fail "x") [] "t" (by decide) rfl⟩

/-- C7 counterexample: a query that does contain an `error` parameter — with the empty
string as value — is NOT relayed: the code's truthiness test skips the error branch and
the response reports `missing_code` instead of the query's error value. -/
theorem c7_counterexample :
    ({ qNone with error := some "" } : QueryParams).error.isSome = true ∧
    (appHandle cfgW ⟨"GET", "/callback", { qNone with error := some "" }⟩
        (FetchOutcome.fail "x") [] "t").response.field "error" = some (JVal.str "missing_code") ∧
    (appHandle cfgW ⟨"GET", "/callback", { qNone with error := some "" }⟩
        (FetchOutcome.fail "x") [] "t").response.field "error" ≠ some (JVal.str "") := by
  decide

/-- C7 (amended): for every GET /callback whose query carries a non-empty `error`
value, the response is 400 with that error relayed, the fixed message template, and
`state` relayed when non-empty (null otherwise); no outbound call is made and the
fetch outcome is irrelevant. -/
theorem c7_error_relay :
    ∀ (cfg : Config) (q : QueryParams) (o : FetchOutcome) (b : List Nat) (n : String),
      configured cfg = true → truthy q.error = true →
      appHandle cfg ⟨"GET", "/callback", q⟩ o b n =
        { response :=
            { status := 400,
              body := [("success", JVal.bool false), ("error", JVal.str (q.error.getD "")),
                       ("message", JVal.str ("Spotify authorization failed: " ++ q.error.getD "")),
                       ("state", if truthy q.state then JVal.str (q.state.getD "") else JVal.null)],
              location := none },
          outboundCall := none } := by
  intro cfg q o b n hcfg he
  rw [appHandle_callback cfg q o b n hcfg]
  simp [callbackHandler, he]

/-- C7 witness: `?error=access_denied&state=abc` is relayed as a 400 with both values. -/
theorem c7_error_relay_witness :
    appHandle cfgW
        ⟨"GET", "/callback", { qNone with error := some "access_denied", state := some "abc" }⟩
        (FetchOutcome.fail "x") [] "t" =
      { response :=
          { status := 400,
            body := [("success", JVal.bool false), ("error", JVal.str "access_denied"),
                     ("message", JVal.str "Spotify authorization failed: access_denied"),
                     ("state", JVal.str "abc")],
            location := none },
        outboundCall := none } :=
  c7_error_relay cfgW { qNone with error := some "access_denied", state := some "abc" }
    (FetchOutcome.fail "x") [] "t" (by decide) (by decide)

/-- On a provider success, the callback's 200 body relays each token field present in
the provider body unchanged (absent fields are omitted). -/
theorem callbackSuccessFields (cfg : Config) (q : QueryParams) (d : TokenBody)
    (he : truthy q.error = false) (hc : truthy q.code = true) (hde : truthy d.error = false) :
    (callbackHandler cfg q (FetchOutcome.ok d)).response.status = 200 ∧
    (callbackHandler cfg q (FetchOutcome.ok d)).response.field "success" = some (JVal.bool true) ∧
    (callbackHandler cfg q (FetchOutcome.ok d)).response.field "access_token" =
      d.access_token.map JVal.str ∧
    (callbackHandler cfg q (FetchOutcome.ok d)).response.field "token_type" =
      d.token_type.map JVal.str ∧
    (callbackHandler cfg q (FetchOutcome.ok d)).response.field "scope" =
      d.scope.map JVal.str ∧
    (callbackHandler cfg q (FetchOutcome.ok d)).response.field "expires_in" =
      d.expires_in.map JVal.num ∧
    (callbackHandler cfg q (FetchOutcome.ok d)).response.field "refresh_token" =
      d.refresh_token.map JVal.str := by
  cases hat : d.access_token <;> cases htt : d.token_type <;> cases hsc : d.scope <;>
    cases hei : d.expires_in <;> cases hrt : d.refresh_token <;>
      simp [callbackHandler, he, hc, hde, hat, htt, hsc, hei, hrt,
        Response.field, optField, List.find?]

/-- On a provider success, the refresh endpoint's 200 body relays access_token,
token_type, scope and expires_in unchanged, and carries refresh_token exactly when
the provider's value is truthy (present and non-empty). -/
theorem refreshSuccessFields (q : QueryParams) (d : TokenBody)
    (hr : truthy q.refresh_token = true) (hde : truthy d.error = false) :
    (refreshHandler q (FetchOutcome.ok d)).response.status = 200 ∧
    (refreshHandler q (FetchOutcome.ok d)).response.field "success" = some (JVal.bool true) ∧
    (refreshHandler q (FetchOutcome.ok d)).response.field "access_token" =
      d.access_token.map JVal.str ∧
    (refreshHandler q (FetchOutcome.ok d)).response.field "token_type" =
      d.token_type.map JVal.str ∧
    (refreshHandler q (FetchOutcome.ok d)).response.field "scope" =
      d.scope.map JVal.str ∧
    (refreshHandler q (FetchOutcome.ok d)).response.field "expires_in" =
      d.expires_in.map JVal.num ∧
    (refreshHandler q (FetchOutcome.ok d)).response.field "refresh_token" =
      (if truthy d.refresh_token then some (JVal.str (d.refresh_token.getD "")) else none) := by
  cases hat : d.access_token <;> cases htt : d.token_type <;> cases hsc : d.scope <;>
    cases hei : d.expires_in <;> cases hrtb : truthy d.refresh_token <;>
      simp [refreshHandler, hr, hde, hat, htt, hsc, hei, hrtb,
        Response.field, optField, List.find?]

/-- C8 counterexample: a refresh success body that contains a `refresh_token` field
holding the empty string is not relayed verbatim — the 200 response omits the field
(`...(data.refresh_token && {...})` drops falsy values). -/
theorem c8_counterexample :
    dEmptyRefresh.refresh_token.isSome = true ∧
    (appHandle cfgW ⟨"GET", "/refresh_token", { qNone with refresh_token := some "RT" }⟩
        (FetchOutcome.ok dEmptyRefresh) [] "t").response.status = 200 ∧
    (appHandle cfgW ⟨"GET", "/refresh_token", { qNone with refresh_token := some "RT" }⟩
        (FetchOutcome.ok dEmptyRefresh) [] "t").response.field "refresh_token" = none := by
  decide

/-- C8 (amended): on a provider success both endpoints answer 200 with
`success:true` and relay each present token field of the provider body unchanged —
except that GET /refresh_token includes `refresh_token` exactly when the provider's
value is present and non-empty. -/
theorem c8_success_relay :
    (∀ (cfg : Config) (q : QueryParams) (d : TokenBody) (b : List Nat) (n : String),
      configured cfg = true → truthy q.error = false → truthy q.code = true →
      truthy d.error = false →
      (appHandle cfg ⟨"GET", "/callback", q⟩ (FetchOutcome.ok d) b n).response.status = 200 ∧
      (appHandle cfg ⟨"GET", "/callback", q⟩ (FetchOutcome.ok d) b n).response.field "success" =
        some (JVal.bool true) ∧
      (appHandle cfg ⟨"GET", "/callback", q⟩ (FetchOutcome.ok d) b n).response.field "access_token" =
        d.access_token.map JVal.str ∧
      (appHandle cfg ⟨"GET", "/callback", q⟩ (FetchOutcome.ok d) b n).response.field "token_type" =
        d.token_type.map JVal.str ∧
      (appHandle cfg ⟨"GET", "/callback", q⟩ (FetchOutcome.ok d) b n).response.field "scope" =
        d.scope.map JVal.str ∧
      (appHandle cfg ⟨"GET", "/callback", q⟩ (FetchOutcome.ok d) b n).response.field "expires_in" =
        d.expires_in.map JVal.num ∧
      (appHandle cfg ⟨"GET", "/callback", q⟩ (FetchOutcome.ok d) b n).response.field "refresh_token" =
        d.refresh_token.map JVal.str) ∧
    (∀ (cfg : Config) (q : QueryParams) (d : TokenBody) (b : List Nat) (n : String),
      configured cfg = true → truthy q.refresh_token = true → truthy d.error = false →
      (appHandle cfg ⟨"GET", "/refresh_token", q⟩ (FetchOutcome.ok d) b n).response.status = 200 ∧
      (appHandle cfg ⟨"GET", "/refresh_token", q⟩ (FetchOutcome.ok d) b n).response.field "success" =
        some (JVal.bool true) ∧
      (appHandle cfg ⟨"GET", "/refresh_token", q⟩ (FetchOutcome.ok d) b n).response.field "access_token" =
        d.access_token.map JVal.str ∧
      (appHandle cfg ⟨"GET", "/refresh_token", q⟩ (FetchOutcome.ok d) b n).response.field "token_type" =
        d.token_type.map JVal.str ∧
      (appHandle cfg ⟨"GET", "/refresh_token", q⟩ (FetchOutcome.ok d) b n).response.field "scope" =
        d.scope.map JVal.str ∧
      (appHandle cfg ⟨"GET", "/refresh_token", q⟩ (FetchOutcome.ok d) b n).response.field "expires_in" =
        d.expires_in.map JVal.num ∧
      (appHandle cfg ⟨"GET", "/refresh_token", q⟩ (FetchOutcome.ok d) b n).response.field "refresh_token" =
        (if truthy d.refresh_token then some (JVal.str (d.refresh_token.getD "")) else none)) := by
  constructor
  · intro cfg q d b n hcfg he hc hde
    rw [appHandle_callback cfg q (FetchOutcome.ok d) b n hcfg]
    exact callbackSuccessFields cfg q d he hc hde
  · intro cfg q d b n hcfg hr hde
    rw [appHandle_refresh cfg q (FetchOutcome.ok d) b n hcfg]
    exact refreshSuccessFields q d hr hde

/-- C8 witness: a full provider body is relayed field-by-field by GET /callback. -/
theorem c8_success_relay_witness :
    (appHandle cfgW ⟨"GET", "/callback", { qNone with code := some "abc" }⟩
        (FetchOutcome.ok dFull) [] "t").response.field "access_token" =
      dFull.access_token.map JVal.str :=
  (c8_success_relay.1 cfgW { qNone with code := some "abc" } dFull [] "t"
    (by decide) (by decide) (by decide) (by decide)).2.2.1

/-- C9: every response of the whole pipeline whose status is not 200 and not 302 —
the configuration 500, the client-input and provider-error 400s, the transport 500s
and the 404 — carries a JSON body with both an `error` and a `message` field. -/
theorem c9_error_body_shape :
    ∀ (cfg : Config) (req : Request) (o : FetchOutcome) (b : List Nat) (n : String),
      (appHandle cfg req o b n).response.status ≠ 200 →
      (appHandle cfg req o b n).response.status ≠ 302 →
      ((appHandle cfg req o b n).response.field "error").isSome = true ∧
      ((appHandle cfg req o b n).response.field "message").isSome = true := by
  intro cfg req o b n
  cases hg : (!(req.path == "/health" || req.path == "/") && !configured cfg) with
  | true =>
    intro _ _
    have hred : appHandle cfg req o b n =
        { response :=
            { status := 500,
              body := [("error", JVal.str "server_misconfigured"),
                       ("message", JVal.str envGuardMessage)],
              location := none },
          outboundCall := none } := by
      simp only [appHandle]
      rw [hg]
      simp
    rw [hred]
    simp [Response.field, List.find?]
  | false =>
    cases h1 : (req.method == "GET" && req.path == "/") with
    | true =>
      intro h200 _
      refine absurd ?_ h200
      simp only [appHandle]
      rw [hg, h1]
      simp [homeTrace]
    | false =>
      cases h2 : (req.method == "GET" && req.path == "/health") with
      | true =>
        intro h200 _
        refine absurd ?_ h200
        simp only [appHandle]
        rw [hg, h1, h2]
        simp [healthTrace]
      | false =>
        cases h3 : (req.method == "GET" && req.path == "/login") with
        | true =>
          intro _ h302
          refine absurd ?_ h302
          simp only [appHandle]
          rw [hg, h1, h2, h3]
          simp [loginHandler]
        | false =>
          cases h4 : (req.method == "GET" && req.path == "/callback") with
          | true =>
            have hred : appHandle cfg req o b n = callbackHandler cfg req.query o := by
              simp only [appHandle]
              rw [hg, h1, h2, h3, h4]
              simp
            rw [hred]
            intro h200 _
            exact ⟨(callbackShape cfg req.query o h200).2.2.1,
                   (callbackShape cfg req.query o h200).2.2.2⟩
          | false =>
            cases h5 : (req.method == "GET" && req.path == "/refresh_token") with
            | true =>
              have hred : appHandle cfg req o b n = refreshHandler req.query o := by
                simp only [appHandle]
                rw [hg, h1, h2, h3, h4, h5]
                simp
              rw [hred]
              intro h200 _
              exact ⟨(refreshShape req.query o h200).2.2.1,
                     (refreshShape req.query o h200).2.2.2⟩
            | false =>
              intro _ _
              have hred : appHandle cfg req o b n =
                  { response :=
                      { status := 404,
                        body := [("error", JVal.str "not_found"),
                                 ("message", JVal.str ("Route " ++ req.method ++ " " ++
                                   req.path ++ " not found."))],
                        location := none },
                    outboundCall := none } := by
                simp only [appHandle]
                rw [hg, h1, h2, h3, h4, h5]
                simp
              rw [hred]
              simp [Response.field, List.find?]

/-- C9 witness: the 404 response for a concrete unknown route has both fields. -/
theorem c9_error_body_shape_witness :
    ((appHandle cfgW ⟨"GET", "/nope", qNone⟩ (FetchOutcome.fail "x") [] "t").response.field
        "error").isSome = true ∧
    ((appHandle cfgW ⟨"GET", "/nope", qNone⟩ (FetchOutcome.fail "x") [] "t").response.field
        "message").isSome = true :=
  c9_error_body_shape cfgW ⟨"GET", "/nope", qNone⟩ (FetchOutcome.fail "x") [] "t"
    (by decide) (by decide)

/-- C10 counterexample: a /callback query holding both `error` (empty string) and
`code` does NOT take the error branch — the exchange is attempted (an outbound call
happens) and the response is not the 400 error relay. -/
theorem c10_counterexample :
    ({ qNone with code := some "abc", error := some "" } : QueryParams).error.isSome = true ∧
    ({ qNone with code := some "abc", error := some "" } : QueryParams).code.isSome = true ∧
    (appHandle cfgW ⟨"GET", "/callback", { qNone with code := some "abc", error := some "" }⟩
        (FetchOutcome.ok dFull) [] "t").outboundCall ≠ none ∧
    (appHandle cfgW ⟨"GET", "/callback", { qNone with code := some "abc", error := some "" }⟩
        (FetchOutcome.ok dFull) [] "t").response.status ≠ 400 := by
  decide

/-- C10 (amended): whenever the /callback query carries a non-empty `error`, the
error branch wins: the result is identical for every value of `code`, the status is
400, the provider error is relayed, and no outbound call is made. -/
theorem c10_error_precedence :
    ∀ (cfg : Config) (q : QueryParams) (o : FetchOutcome) (b : List Nat) (n : String)
      (c' : Option String),
      configured cfg = true → truthy q.error = true →
      appHandle cfg ⟨"GET", "/callback", q⟩ o b n =
        appHandle cfg ⟨"GET", "/callback", { q with code := c' }⟩ o b n ∧
      (appHandle cfg ⟨"GET", "/callback", q⟩ o b n).response.status = 400 ∧
      (appHandle cfg ⟨"GET", "/callback", q⟩ o b n).outboundCall = none ∧
      (appHandle cfg ⟨"GET", "/callback", q⟩ o b n).response.field "error" =
        some (JVal.str (q.error.getD "")) := by
  intro cfg q o b n c' hcfg he
  rw [appHandle_callback cfg q o b n hcfg,
      appHandle_callback cfg { q with code := c' } o b n hcfg]
  refine ⟨?_, ?_, ?_, ?_⟩ <;> simp [callbackHandler, he, Response.field, List.find?]

/-- C10 witness: with `?error=access_denied&code=abc`, dropping the code changes
nothing and no exchange happens. -/
theorem c10_error_precedence_witness :
    appHandle cfgW
        ⟨"GET", "/callback", { qNone with error := some "access_denied", code := some "abc" }⟩
        (FetchOutcome.ok dFull) [] "t" =
      appHandle cfgW
        ⟨"GET", "/callback", { qNone with error := some "access_denied", code := none }⟩
        (FetchOutcome.ok dFull) [] "t" :=
  (c10_error_precedence cfgW { qNone with error := some "access_denied", code := some "abc" }
    (FetchOutcome.ok dFull) [] "t" none (by decide) (by decide)).1
